import Mathlib

/-!
Verification of the two-stage RSSI pipeline in src/utils/tools.py of the
optimaps-indoor-positioning repository.

The embedding models the pandas/numpy code over exact reals:
Python floats become real numbers, `round(x, 2)` becomes integer rounding of
`x * 100` divided by 100, a missing cell (Python `None` / pandas `NaN`) becomes
`Option.none`, and the IEEE infinities that `np.log10(0)` can introduce are
modelled with `EReal` (so a cell of the converted table is `Option EReal`,
`none` standing for NaN).

Tables are modelled positionally: a data frame is a column list plus a list of
rows, a row of the distance table is an association list from column name to
cell.  `pd.DataFrame(distances)` applied to a list of dicts with one uniform
key set (which is what `get_distances` produces) has exactly these rows and
columns, and every operation performed on it by the code is elementwise, so the
per-row association-list view coincides with the columnwise pandas view.
-/

namespace Optimaps

/-- One row of the test-data table `df_test`: the identity fields the pipeline
reads (`LABEL`, `DEVICE`, `X`, `Y`).  The raw per-channel RSSI readings of the
row are never read by `get_distances` or `expected_rssi` (only the column
names decide the channel set), so they are not carried here. -/
structure TestRow where
  LABEL : String
  DEVICE : String
  X : ℝ
  Y : ℝ

/-- A point table: its full column-name list (`df.columns`, source of the
`WAP*` channel identifiers) and its rows. -/
structure TestTable where
  cols : List String
  rows : List TestRow

/-- One row of the access-point registry `df_AP`: columns `AP`, `x`, `y`. -/
structure APRow where
  AP : String
  x : ℝ
  y : ℝ

/-- One distance mapping, as produced per point by `get_distances`: an
association list from channel identifier to distance, `none` being the
`None` recorded when the access point is unknown. -/
abbrev DistRow := List (String × Option ℝ)

/-- The `LogParams` TypedDict: `rho_0` and `alpha` of the path-loss model. -/
structure LogParams where
  rho_0 : ℝ
  alpha : ℝ

/-- One output row of `expected_rssi`: the converted per-channel cells
(`Option EReal`: `none` is NaN, `⊥`/`⊤` the IEEE infinities) plus the
identity columns `LABEL`, `DEVICE`, `X`, `Y` attached at the end. -/
structure FingerprintRow where
  cells : List (String × Option EReal)
  LABEL : String
  DEVICE : String
  X : ℝ
  Y : ℝ

/-- Line 38: `wap_columns = [col for col in df.columns if col.startswith('WAP')]`.
Python's `str.startswith` is the prefix test on the character sequence,
written here over `String.data` (the byte-level `String.startsWith` has the
same value but does not reduce in the kernel). -/
def wapColumns (cols : List String) : List String :=
  cols.filter (fun c => "WAP".data.isPrefixOf c.data)

/-- Lines 41-45: the dict `ap_coords`, built by iterating over the rows of
`ap_df` and keeping `(row['x'], row['y'])` for each name that is also a WAP
column of the test data.  Python dict assignment lets a later row overwrite an
earlier one with the same name, hence the last matching row wins. -/
def apCoords (apDf : List APRow) (waps : List String) (name : String) :
    Option (ℝ × ℝ) :=
  ((apDf.filter (fun r => r.AP == name && waps.contains r.AP)).getLast?).map
    (fun r => (r.x, r.y))

/-- Python `round(x, 2)` / pandas `.round(2)` on a finite value: round to the
nearest multiple of 1/100 (ties are irrelevant to every claim checked here). -/
noncomputable def round2 (x : ℝ) : ℝ := (round (x * 100) : ℤ) / 100

/-- Line 58: `((px - ax) ** 2 + (py - ay) ** 2 + H ** 2) ** 0.5`. -/
noncomputable def pointDistance (px py ax ay H : ℝ) : ℝ :=
  Real.sqrt ((px - ax) ^ 2 + (py - ay) ^ 2 + H ^ 2)

/-- Lines 55-62: one cell of a distance mapping: the rounded Euclidean
distance when `ap_coords` knows the access point, `None` otherwise. -/
noncomputable def distCell (apDf : List APRow) (waps : List String) (H : ℝ)
    (row : TestRow) (w : String) : Option ℝ :=
  match apCoords apDf waps w with
  | some (ax, ay) => some (round2 (pointDistance row.X row.Y ax ay H))
  | none => none

/-- Lines 18-66: `get_distances(df, ap_df, H)`.  One association list per row
of `df`, keyed by the WAP columns of `df` in column order. -/
noncomputable def get_distances (df : TestTable) (apDf : List APRow) (H : ℝ) :
    List DistRow :=
  df.rows.map (fun row =>
    (wapColumns df.cols).map (fun w =>
      (w, distCell apDf (wapColumns df.cols) H row w)))

/-- `df_ap['AP'].values`, the identifier collection tested on line 98. -/
def apNames (apDf : List APRow) : List String := apDf.map (fun r => r.AP)

/-- Lines 100-102 on one cell of a recognized column:
`- rho_0 - 10 * alpha * np.log10(d)` followed by `.round(2)`.
`np.log10` of NaN is NaN, of a negative value NaN, of 0 it is `-inf`;
a finite `rho_0` minus `10 * alpha * (-inf)` is `+inf` for `alpha > 0`,
`-inf` for `alpha < 0`, and NaN for `alpha = 0` (IEEE `0 * inf`); rounding
leaves NaN and the infinities unchanged. -/
noncomputable def convertCell (p : LogParams) : Option ℝ → Option EReal
  | none => none
  | some d =>
    if d < 0 then none
    else if d = 0 then
      if 0 < p.alpha then some ⊤
      else if p.alpha < 0 then some ⊥
      else none
    else some ((round2 (-p.rho_0 - 10 * p.alpha * Real.logb 10 d) : ℝ) : EReal)

/-- Line 104, per cell: `clip(lower=-100, upper=None)` leaves NaN alone and
raises every other value to at least -100. -/
noncomputable def clipCell : Option EReal → Option EReal
  | none => none
  | some x => some (max x ((-100 : ℝ) : EReal))

/-- Lines 97-104 on one cell: columns whose name is among the registry's
identifiers are converted by the path-loss formula, every other column keeps
its values, and the final `clip` on the whole frame is applied to both. -/
noncomputable def rssiCell (names : List String) (p : LogParams) (w : String)
    (c : Option ℝ) : Option EReal :=
  clipCell (if names.contains w then convertCell p c
            else c.map (fun x => (x : EReal)))

/-- Lines 97-104 on one row of `pd.DataFrame(distances)`. -/
noncomputable def rssiRow (names : List String) (p : LogParams) (r : DistRow) :
    List (String × Option EReal) :=
  r.map (fun kc => (kc.1, rssiCell names p kc.1 kc.2))

/-- Lines 107-112 acting on a zero-row `rssi_df`: pandas sets the empty
frame's index from the first assigned identity array and the row ends up
carrying only the identity columns, no per-channel cells. -/
def identityRow (t : TestRow) : FingerprintRow :=
  { cells := []
    LABEL := t.LABEL
    DEVICE := t.DEVICE
    X := t.X
    Y := t.Y }

/-- Lines 74-114: `expected_rssi(distances, df_ap, log_params)`.  The function
also reads the module-global `df_test` (lines 107-112), modelled here as the
explicit argument `dfTest`.  Each of the four assignments
`rssi_df['LABEL'] = df_test['LABEL'].values` (and `DEVICE`, `X`, `Y`)
requires the value array's length to equal the frame's row count and raises
`ValueError` otherwise; the raised error is modelled as the result `none`.
One exception, faithful to pandas: when `distances` is the empty list,
`pd.DataFrame([])` has a zero-length index and column assignment first sets
the index from the assigned values (`DataFrame._ensure_valid_index`), so the
call succeeds whatever the global table's length and returns one
identity-only row per `df_test` row. -/
noncomputable def expected_rssi (distances : List DistRow) (dfAp : List APRow)
    (p : LogParams) (dfTest : List TestRow) : Option (List FingerprintRow) :=
  if distances.isEmpty then
    some (dfTest.map identityRow)
  else if distances.length = dfTest.length then
    some (List.zipWith (fun r t =>
      { cells := rssiRow (apNames dfAp) p r
        LABEL := t.LABEL
        DEVICE := t.DEVICE
        X := t.X
        Y := t.Y }) distances dfTest)
  else none

/-! ### Helper lemmas -/

/-- `round2` fixes integers. -/
lemma round2_intCast (n : ℤ) : round2 (n : ℝ) = (n : ℝ) := by
  unfold round2
  have h : ((n : ℝ) * 100) = ((n * 100 : ℤ) : ℝ) := by push_cast; ring
  rw [h, round_intCast]
  push_cast
  ring

lemma clip_ge (c : Option EReal) (v : EReal) (h : clipCell c = some v) :
    ((-100 : ℝ) : EReal) ≤ v := by
  cases c with
  | none => simp [clipCell] at h
  | some x =>
    simp only [clipCell, Option.some.injEq] at h
    exact h ▸ le_max_right _ _

lemma logb_ten_ten : Real.logb 10 10 = 1 := Real.logb_self_eq_one (by norm_num)

/-- `round2` fixes any real that happens to be an integer. -/
lemma round2_ofInt (x : ℝ) (n : ℤ) (h : x = (n : ℝ)) : round2 x = x := by
  rw [h, round2_intCast]

/-- The path-loss substitution on a strictly positive distance. -/
lemma conv_pos (p : LogParams) (d : ℝ) (hd : 0 < d) :
    convertCell p (some d)
      = some ((round2 (-p.rho_0 - 10 * p.alpha * Real.logb 10 d) : ℝ) : EReal) := by
  simp only [convertCell, if_neg (not_lt.mpr hd.le), if_neg hd.ne']

lemma conv_ten : convertCell ⟨40, 2⟩ (some 10) = some (((-60 : ℝ)) : EReal) := by
  rw [conv_pos _ _ (by norm_num)]
  have h3 : -(40 : ℝ) - 10 * 2 * Real.logb 10 10 = ((-60 : ℤ) : ℝ) := by
    rw [logb_ten_ten]; norm_num
  show some ((round2 (-(40:ℝ) - 10 * 2 * Real.logb 10 10) : ℝ) : EReal) = _
  rw [h3, round2_intCast]
  norm_num

lemma conv_tenThousand : convertCell ⟨40, 2⟩ (some 10000) = some (((-120 : ℝ)) : EReal) := by
  rw [conv_pos _ _ (by norm_num)]
  have h4 : (10000 : ℝ) = 10 ^ (4 : ℕ) := by norm_num
  have h3 : -(40 : ℝ) - 10 * 2 * Real.logb 10 10000 = ((-120 : ℤ) : ℝ) := by
    rw [h4, Real.logb_pow, logb_ten_ten]; norm_num
  show some ((round2 (-(40:ℝ) - 10 * 2 * Real.logb 10 10000) : ℝ) : EReal) = _
  rw [h3, round2_intCast]
  norm_num

/-- A zero distance fed to the converter yields `+inf` whenever `alpha > 0`:
`np.log10(0) = -inf` and `-rho_0 - 10 * alpha * (-inf) = +inf`. -/
lemma conv_zero (p : LogParams) (ha : 0 < p.alpha) : convertCell p (some 0) = some ⊤ := by
  simp [convertCell, ha]

lemma clip_top : clipCell (some (⊤ : EReal)) = some ⊤ := by
  simp only [clipCell, Option.some.injEq]
  exact max_eq_left le_top

lemma clip_coe_of_le (x : ℝ) (h : -100 ≤ x) :
    clipCell (some ((x : ℝ) : EReal)) = some ((x : ℝ) : EReal) := by
  simp only [clipCell, Option.some.injEq]
  exact max_eq_left (EReal.coe_le_coe_iff.mpr h)

lemma clip_coe_of_lt (x : ℝ) (h : x ≤ -100) :
    clipCell (some ((x : ℝ) : EReal)) = some (((-100 : ℝ)) : EReal) := by
  simp only [clipCell, Option.some.injEq]
  exact max_eq_right (EReal.coe_le_coe_iff.mpr h)

/-- An unknown channel identifier is never converted to RSSI. -/
lemma rssiCell_not_mem (names : List String) (p : LogParams) (w : String)
    (hw : w ∉ names) (c : Option ℝ) :
    rssiCell names p w c = clipCell (c.map (fun x => ((x : ℝ) : EReal))) := by
  cases c <;> simp [rssiCell, hw]

/-- A recognized channel identifier is converted by the path-loss formula. -/
lemma rssiCell_mem (names : List String) (p : LogParams) (w : String)
    (hw : w ∈ names) (c : Option ℝ) :
    rssiCell names p w c = clipCell (convertCell p c) := by
  simp [rssiCell, hw]

/-- A NaN cell stays NaN through conversion, rounding and clipping. -/
lemma rssiCell_none (names : List String) (p : LogParams) (w : String) :
    rssiCell names p w none = none := by
  cases h : names.contains w <;> simp [rssiCell, h, convertCell, clipCell]

/-- The converted table is a per-cell image of the distance table. -/
lemma lookup_rssiRow (names : List String) (p : LogParams) (k : String) :
    ∀ r : DistRow,
      List.lookup k (rssiRow names p r)
        = (List.lookup k r).map (fun c => rssiCell names p k c) := by
  intro r
  induction r with
  | nil => simp [rssiRow]
  | cons kc r ih =>
    rcases kc with ⟨k2, c⟩
    by_cases hk : k = k2
    · subst hk
      simp [rssiRow, List.lookup]
    · have hb : (k == k2) = false := beq_eq_false_iff_ne.mpr hk
      simpa [rssiRow, List.lookup, hb] using ih

/-- An identifier with no row in the registry gets no coordinates. -/
lemma apCoords_eq_none (apDf : List APRow) (waps : List String) (w : String)
    (h : w ∉ apNames apDf) : apCoords apDf waps w = none := by
  unfold apCoords
  have hf : apDf.filter (fun r => r.AP == w && waps.contains r.AP) = [] := by
    simp only [List.filter_eq_nil_iff, Bool.and_eq_true, beq_iff_eq, not_and]
    intro r hr he
    exact absurd (he ▸ List.mem_map_of_mem (fun r2 => r2.AP) hr) h
  rw [hf]
  rfl

lemma get_distances_length (df : TestTable) (apDf : List APRow) (H : ℝ) :
    (get_distances df apDf H).length = df.rows.length := by
  simp [get_distances]

lemma get_distances_get (df : TestTable) (apDf : List APRow) (H : ℝ) (i : ℕ)
    (hi : i < (get_distances df apDf H).length) (hj : i < df.rows.length) :
    (get_distances df apDf H).get ⟨i, hi⟩
      = (wapColumns df.cols).map (fun w =>
          (w, distCell apDf (wapColumns df.cols) H (df.rows.get ⟨i, hj⟩) w)) := by
  simp [get_distances, List.get_eq_getElem]

/-- Inversion for a successful `expected_rssi` call: either the distance
list was empty and the output is one identity-only row per global-table row,
or the lengths matched and the output is the zip of the converted rows with
the global identity rows. -/
lemma expected_rssi_some_inv (distances : List DistRow) (dfAp : List APRow)
    (p : LogParams) (dfTest : List TestRow) (out : List FingerprintRow)
    (h : expected_rssi distances dfAp p dfTest = some out) :
    (distances = [] ∧ out = dfTest.map identityRow)
    ∨ (distances.length = dfTest.length
        ∧ out = List.zipWith (fun r t =>
            ({ cells := rssiRow (apNames dfAp) p r
               LABEL := t.LABEL, DEVICE := t.DEVICE, X := t.X, Y := t.Y }
              : FingerprintRow)) distances dfTest) := by
  cases distances with
  | nil =>
    left
    unfold expected_rssi at h
    simp only [List.isEmpty_nil, if_true] at h
    exact ⟨rfl, (Option.some_injective _ h).symm⟩
  | cons d ds =>
    right
    unfold expected_rssi at h
    rw [if_neg (by simp)] at h
    by_cases hl : (d :: ds).length = dfTest.length
    · rw [if_pos hl] at h
      exact ⟨hl, (Option.some_injective _ h).symm⟩
    · rw [if_neg hl] at h
      cases h

lemma expected_rssi_eq_some (distances : List DistRow) (dfAp : List APRow)
    (p : LogParams) (dfTest : List TestRow)
    (hl : distances.length = dfTest.length) :
    expected_rssi distances dfAp p dfTest
      = some (List.zipWith (fun r t =>
          ({ cells := rssiRow (apNames dfAp) p r
             LABEL := t.LABEL, DEVICE := t.DEVICE, X := t.X, Y := t.Y }
            : FingerprintRow)) distances dfTest) := by
  cases distances with
  | nil =>
    have ht : dfTest = [] := List.length_eq_zero.mp (by simpa using hl.symm)
    subst ht
    unfold expected_rssi
    simp
  | cons d ds =>
    unfold expected_rssi
    rw [if_neg (by simp), if_pos hl]

/-- Lines 107-112 on an empty mapping list: the call succeeds for every
global table, producing its identity rows only. -/
lemma expected_rssi_nil (dfAp : List APRow) (p : LogParams)
    (dfTest : List TestRow) :
    expected_rssi [] dfAp p dfTest = some (dfTest.map identityRow) := by
  unfold expected_rssi
  simp

/-- Deconstructing membership in a zipped list. -/
lemma mem_zipWith_inv {α β γ : Type} {f : α → β → γ} :
    ∀ {as : List α} {bs : List β} {c : γ}, c ∈ List.zipWith f as bs →
      ∃ a b, a ∈ as ∧ b ∈ bs ∧ c = f a b := by
  intro as
  induction as with
  | nil => intro bs c h; simp at h
  | cons a as ih =>
    intro bs c h
    cases bs with
    | nil => simp at h
    | cons b bs =>
      simp only [List.zipWith, List.mem_cons] at h
      rcases h with h | h
      · exact ⟨a, b, by simp, by simp, h⟩
      · obtain ⟨a2, b2, ha, hb, hc⟩ := ih h
        exact ⟨a2, b2, by simp [ha], by simp [hb], hc⟩

/-- Concrete one-point table at the origin declaring the channel WAP1. -/
def dfOrigin : TestTable :=
  ⟨["LABEL", "DEVICE", "X", "Y", "WAP1"], [⟨"z1", "dev1", 0, 0⟩]⟩

/-- Concrete one-point table at (3, 4), coincident with the AP of apReg34. -/
def dfAtAP : TestTable :=
  ⟨["LABEL", "DEVICE", "X", "Y", "WAP1"], [⟨"z1", "dev1", 3, 4⟩]⟩

/-- Concrete registry with the single access point WAP1 at (3, 4). -/
def apReg34 : List APRow := [⟨"WAP1", 3, 4⟩]

lemma wap_cols_lit : wapColumns ["LABEL", "DEVICE", "X", "Y", "WAP1"] = ["WAP1"] := by
  decide

lemma apCoords_34 : apCoords apReg34 ["WAP1"] "WAP1" = some (3, 4) := by
  simp [apCoords, apReg34]

lemma dist_origin_H0 : get_distances dfOrigin apReg34 0 = [[("WAP1", some 5)]] := by
  have h5 : pointDistance 0 0 3 4 0 = 5 := by
    unfold pointDistance
    rw [show ((0:ℝ) - 3) ^ 2 + ((0:ℝ) - 4) ^ 2 + (0:ℝ) ^ 2 = 5 ^ 2 by norm_num]
    exact Real.sqrt_sq (by norm_num)
  simp [get_distances, dfOrigin, wap_cols_lit, distCell, apCoords_34, h5,
    round2_ofInt 5 5 (by norm_num)]

lemma dist_origin_H12 : get_distances dfOrigin apReg34 12 = [[("WAP1", some 13)]] := by
  have h13 : pointDistance 0 0 3 4 12 = 13 := by
    unfold pointDistance
    rw [show ((0:ℝ) - 3) ^ 2 + ((0:ℝ) - 4) ^ 2 + (12:ℝ) ^ 2 = 13 ^ 2 by norm_num]
    exact Real.sqrt_sq (by norm_num)
  simp [get_distances, dfOrigin, wap_cols_lit, distCell, apCoords_34, h13,
    round2_ofInt 13 13 (by norm_num)]

/-! ### Claims -/

/-- C1: for every distance mapping, every access-point column recognized in
the AP registry, and every (strictly positive) defined distance d, the
substitution step of `expected_rssi` replaces d with
`-rho_0 - 10 * alpha * log10 d` rounded to two decimals (the output cell
being that value with the floor clip applied on top); with rho_0 = 40,
alpha = 2 and d = 10 the pre-clip value is -60. -/
theorem c1_path_loss_formula (p : LogParams) (d : ℝ) (hd : 0 < d) :
    convertCell p (some d)
      = some ((round2 (-p.rho_0 - 10 * p.alpha * Real.logb 10 d) : ℝ) : EReal)
    ∧ (∀ (distances : List DistRow) (dfAp : List APRow) (dfTest : List TestRow)
        (out : List FingerprintRow),
        expected_rssi distances dfAp p dfTest = some out →
        ∀ (i : ℕ) (hi : i < out.length) (hj : i < distances.length) (w : String),
          w ∈ apNames dfAp →
          List.lookup w (distances.get ⟨i, hj⟩) = some (some d) →
          List.lookup w ((out.get ⟨i, hi⟩).cells)
            = some (clipCell (some
                ((round2 (-p.rho_0 - 10 * p.alpha * Real.logb 10 d) : ℝ) : EReal))))
    ∧ convertCell ⟨40, 2⟩ (some 10) = some (((-60 : ℝ)) : EReal) := by
  refine ⟨conv_pos p d hd, ?_, conv_ten⟩
  intro distances dfAp dfTest out hout i hi hj w hw hcell
  rcases expected_rssi_some_inv _ _ _ _ _ hout with ⟨hnil, hmap⟩ | ⟨hlen, hzip⟩
  · subst hnil
    simp at hj
  · have ht : i < dfTest.length := hlen ▸ hj
    have hget : (out.get ⟨i, hi⟩).cells
        = rssiRow (apNames dfAp) p (distances.get ⟨i, hj⟩) := by
      subst hzip
      simp [List.get_eq_getElem, List.getElem_zipWith]
    rw [hget, lookup_rssiRow, hcell]
    simp only [Option.map]
    rw [rssiCell_mem _ _ _ hw, conv_pos p d hd]

/-- Witness for C1 at rho_0 = 40, alpha = 2, d = 10. -/
theorem c1_witness : convertCell ⟨40, 2⟩ (some 10) = some (((-60 : ℝ)) : EReal) :=
  (c1_path_loss_formula ⟨40, 2⟩ 10 (by norm_num)).2.2

/-- C2: for every point and every channel identifier with a matching access
point, `get_distances` records the rounded 3D Euclidean distance
`sqrt((X - ax)^2 + (Y - ay)^2 + H^2)`; the point (0,0) with the AP (3,4)
yields 5.0 at H = 0 and 13.0 at H = 12. -/
theorem c2_distance_formula (df : TestTable) (apDf : List APRow) (H : ℝ)
    (w : String) (ax ay : ℝ) (i : ℕ)
    (hi : i < (get_distances df apDf H).length) (hj : i < df.rows.length)
    (hw : w ∈ wapColumns df.cols)
    (hcoords : apCoords apDf (wapColumns df.cols) w = some (ax, ay)) :
    List.lookup w ((get_distances df apDf H).get ⟨i, hi⟩)
      = some (some (round2 (Real.sqrt
          (((df.rows.get ⟨i, hj⟩).X - ax) ^ 2
            + ((df.rows.get ⟨i, hj⟩).Y - ay) ^ 2 + H ^ 2))))
    ∧ get_distances dfOrigin apReg34 0 = [[("WAP1", some 5)]]
    ∧ get_distances dfOrigin apReg34 12 = [[("WAP1", some 13)]] := by
  refine ⟨?_, dist_origin_H0, dist_origin_H12⟩
  rw [get_distances_get df apDf H i hi hj,
    List.lookup_graph (fun w2 => distCell apDf (wapColumns df.cols) H
      (df.rows.get ⟨i, hj⟩) w2) hw]
  simp [distCell, hcoords, pointDistance]

/-- Witness for C2: the 3-4-5 and 5-12-13 instances. -/
theorem c2_witness :
    get_distances dfOrigin apReg34 0 = [[("WAP1", some 5)]]
    ∧ get_distances dfOrigin apReg34 12 = [[("WAP1", some 13)]] := by
  have h := c2_distance_formula dfOrigin apReg34 0 "WAP1" 3 4 0
    (by simp [get_distances, dfOrigin]) (by simp [dfOrigin])
    (by decide) apCoords_34
  exact ⟨h.2.1, h.2.2⟩

/-- C3 (code divergence): at a point coincident with its access point the
computed distance is exactly 0, and `expected_rssi` does not clamp it:
`np.log10(0)` is `-inf`, so the output cell is the infinite value `+inf`
(`⊤`), which survives the rounding and the lower clip — there is no
minimum-distance clamp in the code. -/
theorem c3_zero_distance_no_clamp :
    get_distances dfAtAP apReg34 0 = [[("WAP1", some 0)]]
    ∧ expected_rssi [[("WAP1", some 0)]] apReg34 ⟨40, 2⟩ dfAtAP.rows
        = some [⟨[("WAP1", some ⊤)], "z1", "dev1", 3, 4⟩] := by
  constructor
  · have h0 : pointDistance 3 4 3 4 0 = 0 := by
      unfold pointDistance
      rw [show ((3:ℝ) - 3) ^ 2 + ((4:ℝ) - 4) ^ 2 + (0:ℝ) ^ 2 = 0 by norm_num]
      exact Real.sqrt_zero
    simp [get_distances, dfAtAP, wap_cols_lit, distCell, apCoords_34, h0,
      round2_ofInt 0 0 (by norm_num)]
  · rw [expected_rssi_eq_some _ _ _ _ (by simp [dfAtAP])]
    simp only [dfAtAP, List.zipWith]
    have hcell : rssiCell (apNames apReg34) ⟨40, 2⟩ "WAP1" (some 0) = some ⊤ := by
      rw [rssiCell_mem _ _ _ (by simp [apNames, apReg34]),
        conv_zero ⟨40, 2⟩ (by norm_num), clip_top]
    simp [rssiRow, hcell]

/-- Evaluation of the converter on a one-row table whose distance 10000 gives
a raw RSSI of -120, clipped to -100. -/
lemma rssi_example_eval :
    expected_rssi [[("WAP1", some 10000)]] apReg34 ⟨40, 2⟩ [⟨"z1", "dev1", 0, 0⟩]
      = some [⟨[("WAP1", some (((-100 : ℝ)) : EReal))], "z1", "dev1", 0, 0⟩] := by
  rw [expected_rssi_eq_some _ _ _ _ (by simp)]
  have hcell : rssiCell (apNames apReg34) ⟨40, 2⟩ "WAP1" (some 10000)
      = some (((-100 : ℝ)) : EReal) := by
    rw [rssiCell_mem _ _ _ (by simp [apNames, apReg34]), conv_tenThousand,
      clip_coe_of_lt _ (by norm_num)]
  simp [rssiRow, hcell]

/-- C4: every defined cell of a successful `expected_rssi` output is at least
-100; the clip is exactly a floor (values at or above -100 are unchanged, so
there is no upper clip); rho_0 = 40, alpha = 2, d = 10000 yields raw -120
and clipped output -100. -/
theorem c4_floor_invariant (distances : List DistRow) (dfAp : List APRow)
    (p : LogParams) (dfTest : List TestRow) (out : List FingerprintRow)
    (hout : expected_rssi distances dfAp p dfTest = some out) :
    (∀ row ∈ out, ∀ kv ∈ row.cells, ∀ v : EReal, kv.2 = some v →
        ((-100 : ℝ) : EReal) ≤ v)
    ∧ (∀ x : EReal, ((-100 : ℝ) : EReal) ≤ x → clipCell (some x) = some x)
    ∧ convertCell ⟨40, 2⟩ (some 10000) = some (((-120 : ℝ)) : EReal)
    ∧ rssiCell ["WAP1"] ⟨40, 2⟩ "WAP1" (some 10000) = some (((-100 : ℝ)) : EReal) := by
  refine ⟨?_, ?_, conv_tenThousand, ?_⟩
  · intro row hrow kv hkv v hv
    rcases expected_rssi_some_inv _ _ _ _ _ hout with ⟨hnil, hmap⟩ | ⟨hlen, hzip⟩
    · subst hmap
      obtain ⟨t, ht3, hrowEq⟩ := List.mem_map.mp hrow
      subst hrowEq
      simp [identityRow] at hkv
    · subst hzip
      obtain ⟨r, t, hr, ht2, hrowEq⟩ := mem_zipWith_inv hrow
      subst hrowEq
      simp only [rssiRow, List.mem_map] at hkv
      obtain ⟨a, ha, hkvEq⟩ := hkv
      subst hkvEq
      have hcl : rssiCell (apNames dfAp) p a.1 a.2 = some v := hv
      unfold rssiCell at hcl
      exact clip_ge _ v hcl
  · intro x hx
    simp only [clipCell, Option.some.injEq]
    exact max_eq_left hx
  · rw [rssiCell_mem _ _ _ (by simp), conv_tenThousand,
      clip_coe_of_lt _ (by norm_num)]

/-- Witness for C4: the clipped cell of the concrete 10000-metre example,
and the floor bound extracted from the concrete pipeline output. -/
theorem c4_witness :
    rssiCell ["WAP1"] ⟨40, 2⟩ "WAP1" (some 10000) = some (((-100 : ℝ)) : EReal)
    ∧ ((-100 : ℝ) : EReal) ≤ ((-100 : ℝ) : EReal) := by
  have h := c4_floor_invariant [[("WAP1", some 10000)]] apReg34 ⟨40, 2⟩
    [⟨"z1", "dev1", 0, 0⟩]
    [⟨[("WAP1", some (((-100 : ℝ)) : EReal))], "z1", "dev1", 0, 0⟩]
    rssi_example_eval
  refine ⟨h.2.2.2, ?_⟩
  refine h.1 ⟨[("WAP1", some (((-100 : ℝ)) : EReal))], "z1", "dev1", 0, 0⟩ ?_
    ("WAP1", some (((-100 : ℝ)) : EReal)) ?_ (((-100 : ℝ)) : EReal) rfl
  · simp
  · simp

/-- C5: a channel identifier declared by the points but absent from the
registry yields `undefined` (`None`/NaN) in the distance table and in the
RSSI table, only in its own cell — every output cell is the image of the
matching input cell — and the batch still succeeds. -/
theorem c5_undefined_propagation (df : TestTable) (apDf : List APRow) (H : ℝ)
    (w : String) (p : LogParams) (dfTest : List TestRow)
    (hw : w ∈ wapColumns df.cols) (habs : w ∉ apNames apDf)
    (hlen : (get_distances df apDf H).length = dfTest.length) :
    (∀ (i : ℕ) (hi : i < (get_distances df apDf H).length),
        List.lookup w ((get_distances df apDf H).get ⟨i, hi⟩) = some none)
    ∧ rssiCell (apNames apDf) p w none = none
    ∧ (∃ out, expected_rssi (get_distances df apDf H) apDf p dfTest = some out
        ∧ (∀ (i : ℕ) (hi : i < out.length),
            List.lookup w ((out.get ⟨i, hi⟩).cells) = some none)
        ∧ (∀ (k : String) (i : ℕ) (hi : i < out.length)
              (hj : i < (get_distances df apDf H).length),
            List.lookup k ((out.get ⟨i, hi⟩).cells)
              = (List.lookup k ((get_distances df apDf H).get ⟨i, hj⟩)).map
                  (fun c => rssiCell (apNames apDf) p k c))) := by
  have hnone : ∀ (i : ℕ) (hi : i < (get_distances df apDf H).length),
      List.lookup w ((get_distances df apDf H).get ⟨i, hi⟩) = some none := by
    intro i hi
    have hj : i < df.rows.length := by
      rw [← get_distances_length df apDf H]; exact hi
    rw [get_distances_get df apDf H i hi hj,
      List.lookup_graph (fun w2 => distCell apDf (wapColumns df.cols) H
        (df.rows.get ⟨i, hj⟩) w2) hw]
    simp [distCell, apCoords_eq_none apDf (wapColumns df.cols) w habs]
  refine ⟨hnone, rssiCell_none _ _ _, ?_⟩
  refine ⟨_, expected_rssi_eq_some _ _ _ _ hlen, ?_, ?_⟩
  · intro i hi
    have hj : i < (get_distances df apDf H).length := by
      simpa [List.length_zipWith, hlen] using hi
    have hcells : ((List.zipWith (fun r t =>
        ({ cells := rssiRow (apNames apDf) p r
           LABEL := t.LABEL, DEVICE := t.DEVICE, X := t.X, Y := t.Y }
          : FingerprintRow)) (get_distances df apDf H) dfTest).get ⟨i, hi⟩).cells
        = rssiRow (apNames apDf) p ((get_distances df apDf H).get ⟨i, hj⟩) := by
      simp [List.get_eq_getElem, List.getElem_zipWith]
    rw [hcells, lookup_rssiRow, hnone i hj]
    simp only [Option.map]
    rw [rssiCell_none]
  · intro k i hi hj
    have hcells : ((List.zipWith (fun r t =>
        ({ cells := rssiRow (apNames apDf) p r
           LABEL := t.LABEL, DEVICE := t.DEVICE, X := t.X, Y := t.Y }
          : FingerprintRow)) (get_distances df apDf H) dfTest).get ⟨i, hi⟩).cells
        = rssiRow (apNames apDf) p ((get_distances df apDf H).get ⟨i, hj⟩) := by
      simp [List.get_eq_getElem, List.getElem_zipWith]
    rw [hcells, lookup_rssiRow]

/-- Witness for C5: a registry with no entries at all leaves the WAP1 cell
of the one-point table undefined end to end. -/
theorem c5_witness : rssiCell (apNames []) ⟨40, 2⟩ "WAP1" none = none :=
  (c5_undefined_propagation dfOrigin [] 0 "WAP1" ⟨40, 2⟩ dfOrigin.rows
    (by decide) (by simp [apNames]) (by simp [get_distances, dfOrigin])).2.1

/-- C6 fails as stated: with two distance mappings but a one-row global
`df_test`, `expected_rssi` produces no output rows at all (the identity
column assignment raises a length error), instead of one row per input
point. -/
theorem c6_counterexample :
    expected_rssi [[("WAP1", some 5)], [("WAP1", some 5)]] apReg34 ⟨40, 2⟩
      [⟨"z1", "dev1", 0, 0⟩] = none := by
  unfold expected_rssi
  rw [if_neg (by simp), if_neg (by simp)]

/-- C6 amended: `get_distances` yields one mapping per input row in input
order; `expected_rssi` yields one row per mapping in input order whenever
the mapping count equals the global `df_test` row count, and the identity
fields of row i come from row i of the global table.  When the counts
differ and the mapping list is non-empty, the identity-column assignment
raises a length error and there is no output; when the mapping list is
empty, the assignment instead sets the empty frame's index from the global
identity columns and the call returns one identity-only row per global-table
row. -/
theorem c6_row_alignment (df : TestTable) (apDf : List APRow) (H : ℝ)
    (distances : List DistRow) (dfAp2 : List APRow) (p : LogParams)
    (dfTest : List TestRow) (hlen : distances.length = dfTest.length) :
    (get_distances df apDf H).length = df.rows.length
    ∧ (∀ (i : ℕ) (hi : i < (get_distances df apDf H).length)
        (hj : i < df.rows.length),
        (get_distances df apDf H).get ⟨i, hi⟩
          = (wapColumns df.cols).map (fun w =>
              (w, distCell apDf (wapColumns df.cols) H (df.rows.get ⟨i, hj⟩) w)))
    ∧ (∃ out, expected_rssi distances dfAp2 p dfTest = some out
        ∧ out.length = distances.length
        ∧ ∀ (i : ℕ) (hi : i < out.length) (hd : i < distances.length)
            (ht : i < dfTest.length),
            (out.get ⟨i, hi⟩).cells
              = rssiRow (apNames dfAp2) p (distances.get ⟨i, hd⟩)
            ∧ (out.get ⟨i, hi⟩).LABEL = (dfTest.get ⟨i, ht⟩).LABEL
            ∧ (out.get ⟨i, hi⟩).DEVICE = (dfTest.get ⟨i, ht⟩).DEVICE
            ∧ (out.get ⟨i, hi⟩).X = (dfTest.get ⟨i, ht⟩).X
            ∧ (out.get ⟨i, hi⟩).Y = (dfTest.get ⟨i, ht⟩).Y)
    ∧ (∀ dfTest2 : List TestRow,
        expected_rssi [] dfAp2 p dfTest2 = some (dfTest2.map identityRow))
    ∧ (∀ (ds2 : List DistRow) (dfTest2 : List TestRow), ds2 ≠ [] →
        ds2.length ≠ dfTest2.length →
        expected_rssi ds2 dfAp2 p dfTest2 = none) := by
  refine ⟨get_distances_length df apDf H, get_distances_get df apDf H,
    ?_, ?_, ?_⟩
  · refine ⟨_, expected_rssi_eq_some _ _ _ _ hlen,
      by simp [List.length_zipWith, hlen], ?_⟩
    intro i hi hd ht
    have hrow : (List.zipWith (fun r t =>
        ({ cells := rssiRow (apNames dfAp2) p r
           LABEL := t.LABEL, DEVICE := t.DEVICE, X := t.X, Y := t.Y }
          : FingerprintRow)) distances dfTest).get ⟨i, hi⟩
        = { cells := rssiRow (apNames dfAp2) p (distances.get ⟨i, hd⟩)
            LABEL := (dfTest.get ⟨i, ht⟩).LABEL
            DEVICE := (dfTest.get ⟨i, ht⟩).DEVICE
            X := (dfTest.get ⟨i, ht⟩).X
            Y := (dfTest.get ⟨i, ht⟩).Y } := by
      simp [List.get_eq_getElem, List.getElem_zipWith]
    rw [hrow]
    exact ⟨rfl, rfl, rfl, rfl, rfl⟩
  · intro dfTest2
    exact expected_rssi_nil _ _ _
  · intro ds2 dfTest2 hne hnel
    cases ds2 with
    | nil => exact absurd rfl hne
    | cons d2 rest =>
      unfold expected_rssi
      rw [if_neg (by simp), if_neg hnel]

/-- Witness for C6 (amended) on concrete tables: row-count preservation and
the error on a non-empty list against a global table of different length. -/
theorem c6_witness :
    (get_distances dfOrigin apReg34 0).length = dfOrigin.rows.length
    ∧ expected_rssi [[("WAP1", some 5)], [("WAP1", some 5)]] apReg34 ⟨40, 2⟩
        [⟨"z1", "dev1", 0, 0⟩, ⟨"z2", "dev2", 1, 1⟩, ⟨"z3", "dev3", 2, 2⟩]
        = none := by
  have h := c6_row_alignment dfOrigin apReg34 0 [[("WAP1", some 5)]] apReg34
    ⟨40, 2⟩ [⟨"z1", "dev1", 0, 0⟩] rfl
  exact ⟨h.1, h.2.2.2.2 _ _ (by simp) (by simp)⟩

/-- C7 fails as stated: the final `clip(lower=-100)` is applied to the whole
frame, so a key absent from the registry with value -200 is changed to
-100 rather than passed through unmodified. -/
theorem c7_counterexample :
    expected_rssi [[("FOO", some (-200))]] [] ⟨40, 2⟩ [⟨"z1", "dev1", 0, 0⟩]
      = some [⟨[("FOO", some (((-100 : ℝ)) : EReal))], "z1", "dev1", 0, 0⟩]
    ∧ (((-100 : ℝ)) : EReal) ≠ (((-200 : ℝ)) : EReal) := by
  constructor
  · rw [expected_rssi_eq_some _ _ _ _ (by simp)]
    have hcell : rssiCell (apNames []) ⟨40, 2⟩ "FOO" (some (-200))
        = some (((-100 : ℝ)) : EReal) := by
      rw [rssiCell_not_mem _ _ _ (by simp [apNames]) _]
      simp only [Option.map]
      exact clip_coe_of_lt _ (by norm_num)
    simp [rssiRow, hcell]
  · rw [EReal.coe_ne_coe_iff]
    norm_num

/-- C7 amended: a key absent from the recognized identifier set is never
converted by the path-loss formula (no logarithm, no rounding), but the
final floor clip still applies to its column: `undefined` and values at or
above -100 pass through unchanged, values below -100 become -100. -/
theorem c7_pass_through (dfAp : List APRow) (p : LogParams) (w : String)
    (hw : w ∉ apNames dfAp) :
    rssiCell (apNames dfAp) p w none = none
    ∧ (∀ x : ℝ, rssiCell (apNames dfAp) p w (some x)
        = some (max ((x : ℝ) : EReal) (((-100 : ℝ)) : EReal)))
    ∧ (∀ x : ℝ, -100 ≤ x →
        rssiCell (apNames dfAp) p w (some x) = some ((x : ℝ) : EReal))
    ∧ (∀ (distances : List DistRow) (dfTest : List TestRow)
          (out : List FingerprintRow),
        expected_rssi distances dfAp p dfTest = some out →
        ∀ (i : ℕ) (hi : i < out.length) (hj : i < distances.length)
            (c : Option ℝ),
          List.lookup w (distances.get ⟨i, hj⟩) = some c →
          List.lookup w ((out.get ⟨i, hi⟩).cells)
            = some (clipCell (c.map (fun x => ((x : ℝ) : EReal))))) := by
  refine ⟨rssiCell_none _ _ _, ?_, ?_, ?_⟩
  · intro x
    rw [rssiCell_not_mem _ _ _ hw]
    simp only [Option.map]
    rfl
  · intro x hx
    rw [rssiCell_not_mem _ _ _ hw]
    simp only [Option.map]
    exact clip_coe_of_le x hx
  · intro distances dfTest out hout i hi hj c hcell
    rcases expected_rssi_some_inv _ _ _ _ _ hout with ⟨hnil, hmap⟩ | ⟨hlen, hzip⟩
    · subst hnil
      simp at hj
    · have hget : (out.get ⟨i, hi⟩).cells
          = rssiRow (apNames dfAp) p (distances.get ⟨i, hj⟩) := by
        subst hzip
        simp [List.get_eq_getElem, List.getElem_zipWith]
      rw [hget, lookup_rssiRow, hcell]
      simp only [Option.map]
      rw [rssiCell_not_mem _ _ _ hw]
      cases c <;> rfl

/-- Witness for C7 (amended): an unrecognized key with a value above the
floor passes through. -/
theorem c7_witness :
    rssiCell (apNames []) ⟨40, 2⟩ "FOO" (some 7) = some (((7 : ℝ)) : EReal) :=
  (c7_pass_through [] ⟨40, 2⟩ "FOO" (by simp [apNames])).2.2.1 7 (by norm_num)

/-- C8 fails as stated for `expected_rssi`: an empty distance-mapping list
against a non-empty global `df_test` raises nothing, but the output is one
identity-only row per global-table row (pandas sets the empty frame's index
from the assigned identity arrays) — a non-empty output, not the empty
sequence the claim requires. -/
theorem c8_counterexample :
    expected_rssi [] apReg34 ⟨40, 2⟩ [⟨"z1", "dev1", 0, 0⟩]
      = some [identityRow ⟨"z1", "dev1", 0, 0⟩]
    ∧ some [identityRow ⟨"z1", "dev1", 0, 0⟩]
        ≠ some ([] : List FingerprintRow) :=
  ⟨expected_rssi_nil _ _ _, by simp⟩

/-- C8 amended: an empty point table gives an empty distance list and no
error; `expected_rssi` on an empty mapping list never raises either, but it
returns an empty output only when the global `df_test` is empty — in
general it returns one identity-only row per global-table row. -/
theorem c8_empty_input (cols : List String) (apDf : List APRow) (H : ℝ)
    (p : LogParams) (dfTest : List TestRow) :
    get_distances ⟨cols, []⟩ apDf H = []
    ∧ expected_rssi [] apDf p [] = some []
    ∧ expected_rssi [] apDf p dfTest = some (dfTest.map identityRow)
    ∧ (expected_rssi [] apDf p dfTest).isSome = true := by
  refine ⟨by simp [get_distances], expected_rssi_nil _ _ _,
    expected_rssi_nil _ _ _, ?_⟩
  rw [expected_rssi_nil]
  rfl

/-- C10 fails as stated: an empty mapping list against a non-empty global
table succeeds despite the count mismatch, because pandas grows the empty
frame's index from the assigned identity columns. -/
theorem c10_counterexample :
    expected_rssi [] [] ⟨40, 2⟩ [⟨"z0", "dev0", 7, 8⟩]
      = some [identityRow ⟨"z0", "dev0", 7, 8⟩]
    ∧ (([] : List DistRow).length
        ≠ ([⟨"z0", "dev0", 7, 8⟩] : List TestRow).length) :=
  ⟨expected_rssi_nil _ _ _, by simp⟩

/-- C10 amended: `expected_rssi` reads the identity fields from the
module-global `df_test`, so output row i always carries the global table's
row i fields, whatever table the distances were computed from.  A non-empty
mapping list succeeds exactly when its count equals the global row count,
raising a length error otherwise; an empty mapping list always succeeds,
returning one identity-only row per global-table row. -/
theorem c10_global_identity (distances : List DistRow) (dfAp : List APRow)
    (p : LogParams) (dfTest : List TestRow) :
    (distances ≠ [] → distances.length ≠ dfTest.length →
      expected_rssi distances dfAp p dfTest = none)
    ∧ (distances.length = dfTest.length →
      ∃ out, expected_rssi distances dfAp p dfTest = some out
        ∧ out.length = dfTest.length
        ∧ ∀ (i : ℕ) (hi : i < out.length) (ht : i < dfTest.length),
            (out.get ⟨i, hi⟩).LABEL = (dfTest.get ⟨i, ht⟩).LABEL
            ∧ (out.get ⟨i, hi⟩).DEVICE = (dfTest.get ⟨i, ht⟩).DEVICE
            ∧ (out.get ⟨i, hi⟩).X = (dfTest.get ⟨i, ht⟩).X
            ∧ (out.get ⟨i, hi⟩).Y = (dfTest.get ⟨i, ht⟩).Y)
    ∧ expected_rssi [] dfAp p dfTest = some (dfTest.map identityRow) := by
  refine ⟨?_, ?_, expected_rssi_nil _ _ _⟩
  · intro hne hnel
    cases distances with
    | nil => exact absurd rfl hne
    | cons d ds =>
      unfold expected_rssi
      rw [if_neg (by simp), if_neg hnel]
  · intro hlen
    refine ⟨_, expected_rssi_eq_some _ _ _ _ hlen,
      by simp [List.length_zipWith, hlen], ?_⟩
    intro i hi ht
    have hd : i < distances.length := by rw [hlen]; exact ht
    have hrow : (List.zipWith (fun r t =>
        ({ cells := rssiRow (apNames dfAp) p r
           LABEL := t.LABEL, DEVICE := t.DEVICE, X := t.X, Y := t.Y }
          : FingerprintRow)) distances dfTest).get ⟨i, hi⟩
        = { cells := rssiRow (apNames dfAp) p (distances.get ⟨i, hd⟩)
            LABEL := (dfTest.get ⟨i, ht⟩).LABEL
            DEVICE := (dfTest.get ⟨i, ht⟩).DEVICE
            X := (dfTest.get ⟨i, ht⟩).X
            Y := (dfTest.get ⟨i, ht⟩).Y } := by
      simp [List.get_eq_getElem, List.getElem_zipWith]
    rw [hrow]
    exact ⟨rfl, rfl, rfl, rfl⟩

/-- Witness for C10 (amended): a non-empty list with a length mismatch
makes the call fail. -/
theorem c10_witness :
    expected_rssi [[("WAP1", some (5 : ℝ))]] [] ⟨40, 2⟩ [] = none :=
  (c10_global_identity [[("WAP1", some 5)]] [] ⟨40, 2⟩ []).1 (by simp) (by simp)

end Optimaps
